import Mathlib

/-!
Shallow embedding of the Ember print-engine core: the layer accounting,
error handling, status publishing and door-switch mapping of
`PrintEngine.cpp`, and the motor-board command batches of `Motor.cpp`.
Machine integers are modelled as `Int` (no overflow is relevant to the
properties below), `double` exposure times as `ℚ`, and the I²C bus as an
oracle giving the outcome of each successive byte transmission.
-/

/-- Layer classification (`LayerType` = First / BurnIn / Model). -/
inductive LayerType
  | First
  | BurnIn
  | Model
  deriving DecidableEq

/-- Register groups of the motor-board command encoding
(`MC_GENERAL_REG`, `MC_Z_SETTINGS_REG`, `MC_Z_ACTION_REG`,
`MC_ROT_SETTINGS_REG`, `MC_ROT_ACTION_REG`). -/
inductive Reg
  | General
  | ZSettings
  | ZAction
  | RotSettings
  | RotAction
  deriving DecidableEq

/-- Motor-board command actions (`MC_ENABLE` … `MC_SPEED`). -/
inductive Act
  | Enable
  | Disable
  | Pause
  | Resume
  | Clear
  | Reset
  | Interrupt
  | Home
  | Move
  | StepAngle
  | UnitsPerRev
  | Microstepping
  | Jerk
  | Speed
  deriving DecidableEq

/-- A motor-board command: a `(register, action, parameter)` tuple.
Single-byte commands carry parameter 0. -/
structure MotorCommand where
  register : Reg
  action : Act
  parameter : Int
  deriving DecidableEq

/-- Names of the numeric settings read through `SETTINGS.GetInt` and
`LayerSettings::GetInt`. -/
inductive SettingKey
  | zStepAngle
  | zMicronsPerRev
  | zMicroStep
  | rStepAngle
  | rMillidegreesPerRev
  | rMicroStep
  | rHomingJerk
  | rHomingSpeed
  | rHomingAngle
  | zHomingJerk
  | zHomingSpeed
  | rStartPrintJerk
  | rStartPrintSpeed
  | rStartPrintAngle
  | zStartPrintJerk
  | zStartPrintSpeed
  | zStartPrintPosition
  | inspectionHeight
  | layerThickness
  | separationRPM
  | flSeparationRJerk
  | flSeparationRSpeed
  | flRotation
  | flSeparationZJerk
  | flSeparationZSpeed
  | flZLift
  | flApproachRJerk
  | flApproachRSpeed
  | flApproachZJerk
  | flApproachZSpeed
  | biSeparationRJerk
  | biSeparationRSpeed
  | biRotation
  | biSeparationZJerk
  | biSeparationZSpeed
  | biZLift
  | biApproachRJerk
  | biApproachRSpeed
  | biApproachZJerk
  | biApproachZSpeed
  | mlSeparationRJerk
  | mlSeparationRSpeed
  | mlRotation
  | mlSeparationZJerk
  | mlSeparationZSpeed
  | mlZLift
  | mlApproachRJerk
  | mlApproachRSpeed
  | mlApproachZJerk
  | mlApproachZSpeed
  deriving DecidableEq

/-- Per-layer settings lookup: `ls.GetInt(layerNum, key)`. -/
abbrev LayerSettings := Int → SettingKey → Int

/-- C++ `int` division truncates toward zero. -/
def cppDiv (a b : Int) : Int := Int.tdiv a b

/-- Environment of the motor protocol: the settings store, the scale
factors from `MotorController.h` (not fixed by the claims), and the bus
oracle `txOk n` telling whether the `n`-th command transmission over the
I²C bus succeeds. -/
structure MotorEnv where
  settings : SettingKey → Int
  rScaleFactor : Int
  rSpeedFactor : Int
  zSpeedFactor : Int
  unitsPerRevolution : Int
  txOk : Nat → Bool

/-- Observable state of the motor driver: how many transmissions were
attempted so far and the log of every command handed to the bus. -/
structure MotorState where
  txCount : Nat
  sent : List MotorCommand
  deriving DecidableEq

namespace Motor

/-- `MotorCommand::Send`: one bus transmission; the command is attempted
and the oracle decides whether it got through. -/
def send (env : MotorEnv) (c : MotorCommand) (s : MotorState) :
    Bool × MotorState :=
  (env.txOk s.txCount, ⟨s.txCount + 1, s.sent ++ [c]⟩)

/-- `Motor::SendCommands`: transmit a batch one command at a time,
returning `false` immediately when a transmission fails. -/
def sendCommands (env : MotorEnv) :
    List MotorCommand → MotorState → Bool × MotorState
  | [], s => (true, s)
  | c :: rest, s =>
    let r := send env c s
    if r.1 then sendCommands env rest r.2 else (false, r.2)

/-- Command batch built by `Motor::GoHome`. -/
def goHomeCommands (env : MotorEnv) (withInterrupt : Bool) :
    List MotorCommand :=
  let homeAngle := cppDiv (env.settings .rHomingAngle) env.rScaleFactor
  [⟨.RotSettings, .Jerk, env.settings .rHomingJerk⟩,
   ⟨.RotSettings, .Speed, env.rSpeedFactor * env.settings .rHomingSpeed⟩,
   ⟨.RotAction, .Home, env.unitsPerRevolution⟩] ++
  (if homeAngle ≠ 0 then [⟨.RotAction, .Move, homeAngle⟩] else []) ++
  [⟨.ZSettings, .Jerk, env.settings .zHomingJerk⟩,
   ⟨.ZSettings, .Speed, env.zSpeedFactor * env.settings .zHomingSpeed⟩,
   ⟨.ZAction, .Home, -2 * env.settings .zStartPrintPosition⟩] ++
  (if withInterrupt then [⟨.General, .Interrupt, 0⟩] else [])

/-- `Motor::GoHome`. -/
def goHome (env : MotorEnv) (withInterrupt : Bool) (s : MotorState) :
    Bool × MotorState :=
  sendCommands env (goHomeCommands env withInterrupt) s

/-- Command batch built by `Motor::GoToStartPosition` after its embedded
`GoHome(false)`.  Note the final Z move to `Z_START_PRINT_POSITION` is
pushed unconditionally in the source. -/
def goToStartPositionCommands (env : MotorEnv) : List MotorCommand :=
  let startAngle := cppDiv (env.settings .rStartPrintAngle) env.rScaleFactor
  [⟨.RotSettings, .Jerk, env.settings .rStartPrintJerk⟩,
   ⟨.RotSettings, .Speed, env.rSpeedFactor * env.settings .rStartPrintSpeed⟩] ++
  (if startAngle ≠ 0 then [⟨.RotAction, .Move, startAngle⟩] else []) ++
  [⟨.ZSettings, .Jerk, env.settings .zStartPrintJerk⟩,
   ⟨.ZSettings, .Speed, env.zSpeedFactor * env.settings .zStartPrintSpeed⟩,
   ⟨.ZAction, .Move, env.settings .zStartPrintPosition⟩,
   ⟨.General, .Interrupt, 0⟩]

/-- `Motor::GoToStartPosition`: calls `GoHome(false)` — discarding its
result, exactly as the source does — then transmits its own batch. -/
def goToStartPosition (env : MotorEnv) (s : MotorState) :
    Bool × MotorState :=
  let r := goHome env false s
  sendCommands env (goToStartPositionCommands env) r.2

/-- Separation rotation setting key for a layer type
(`FL_ROTATION` / `BI_ROTATION` / `ML_ROTATION`). -/
def rotationKey : LayerType → SettingKey
  | .First => .flRotation
  | .BurnIn => .biRotation
  | .Model => .mlRotation

/-- Z-lift setting key for a layer type. -/
def zLiftKey : LayerType → SettingKey
  | .First => .flZLift
  | .BurnIn => .biZLift
  | .Model => .mlZLift

/-- Separation rotation-axis jerk key for a layer type. -/
def sepRJerkKey : LayerType → SettingKey
  | .First => .flSeparationRJerk
  | .BurnIn => .biSeparationRJerk
  | .Model => .mlSeparationRJerk

/-- Separation rotation-axis speed key for a layer type. -/
def sepRSpeedKey : LayerType → SettingKey
  | .First => .flSeparationRSpeed
  | .BurnIn => .biSeparationRSpeed
  | .Model => .mlSeparationRSpeed

/-- Separation Z-axis jerk key for a layer type. -/
def sepZJerkKey : LayerType → SettingKey
  | .First => .flSeparationZJerk
  | .BurnIn => .biSeparationZJerk
  | .Model => .mlSeparationZJerk

/-- Separation Z-axis speed key for a layer type. -/
def sepZSpeedKey : LayerType → SettingKey
  | .First => .flSeparationZSpeed
  | .BurnIn => .biSeparationZSpeed
  | .Model => .mlSeparationZSpeed

/-- Approach rotation-axis jerk key for a layer type. -/
def appRJerkKey : LayerType → SettingKey
  | .First => .flApproachRJerk
  | .BurnIn => .biApproachRJerk
  | .Model => .mlApproachRJerk

/-- Approach rotation-axis speed key for a layer type. -/
def appRSpeedKey : LayerType → SettingKey
  | .First => .flApproachRSpeed
  | .BurnIn => .biApproachRSpeed
  | .Model => .mlApproachRSpeed

/-- Approach Z-axis jerk key for a layer type. -/
def appZJerkKey : LayerType → SettingKey
  | .First => .flApproachZJerk
  | .BurnIn => .biApproachZJerk
  | .Model => .mlApproachZJerk

/-- Approach Z-axis speed key for a layer type. -/
def appZSpeedKey : LayerType → SettingKey
  | .First => .flApproachZSpeed
  | .BurnIn => .biApproachZSpeed
  | .Model => .mlApproachZSpeed

/-- Command batch built by `Motor::Separate`. -/
def separateCommands (env : MotorEnv) (lt : LayerType) (n : Int)
    (ls : LayerSettings) : List MotorCommand :=
  let rSeparationJerk := ls n (sepRJerkKey lt)
  let rSeparationSpeed := env.rSpeedFactor * ls n (sepRSpeedKey lt)
  let rotation := cppDiv (ls n (rotationKey lt)) env.rScaleFactor
  let zSeparationJerk := ls n (sepZJerkKey lt)
  let zSeparationSpeed := env.zSpeedFactor * ls n (sepZSpeedKey lt)
  let deltaZ := ls n (zLiftKey lt)
  [⟨.RotSettings, .Jerk, rSeparationJerk⟩,
   ⟨.RotSettings, .Speed, rSeparationSpeed⟩] ++
  (if rotation ≠ 0 then [⟨.RotAction, .Move, -rotation⟩] else []) ++
  [⟨.ZSettings, .Jerk, zSeparationJerk⟩,
   ⟨.ZSettings, .Speed, zSeparationSpeed⟩] ++
  (if deltaZ ≠ 0 then [⟨.ZAction, .Move, deltaZ⟩] else []) ++
  [⟨.General, .Interrupt, 0⟩]

/-- `Motor::Separate`. -/
def separate (env : MotorEnv) (lt : LayerType) (n : Int)
    (ls : LayerSettings) (s : MotorState) : Bool × MotorState :=
  sendCommands env (separateCommands env lt n ls) s

/-- Command batch built by `Motor::UnJam`. -/
def unJamCommands (env : MotorEnv) (lt : LayerType) (n : Int)
    (ls : LayerSettings) (withInterrupt : Bool) : List MotorCommand :=
  let rotation := cppDiv (ls n (rotationKey lt)) env.rScaleFactor
  [⟨.RotAction, .Home, env.unitsPerRevolution⟩] ++
  (if rotation ≠ 0 then [⟨.RotAction, .Move, -rotation⟩] else []) ++
  (if withInterrupt then [⟨.General, .Interrupt, 0⟩] else [])

/-- `Motor::UnJam`. -/
def unJam (env : MotorEnv) (lt : LayerType) (n : Int) (ls : LayerSettings)
    (withInterrupt : Bool) (s : MotorState) : Bool × MotorState :=
  sendCommands env (unJamCommands env lt n ls withInterrupt) s

/-- Command batch built by `Motor::Approach` (after any un-jam phase). -/
def approachCommands (env : MotorEnv) (lt : LayerType) (n : Int)
    (ls : LayerSettings) : List MotorCommand :=
  let thickness := ls n .layerThickness
  let deltaZ := ls n (zLiftKey lt)
  let rApproachJerk := ls n (appRJerkKey lt)
  let rApproachSpeed := env.rSpeedFactor * ls n (appRSpeedKey lt)
  let rotation := cppDiv (ls n (rotationKey lt)) env.rScaleFactor
  let zApproachJerk := ls n (appZJerkKey lt)
  let zApproachSpeed := env.zSpeedFactor * ls n (appZSpeedKey lt)
  [⟨.RotSettings, .Jerk, rApproachJerk⟩,
   ⟨.RotSettings, .Speed, rApproachSpeed⟩] ++
  (if rotation ≠ 0 then [⟨.RotAction, .Move, rotation⟩] else []) ++
  [⟨.ZSettings, .Jerk, zApproachJerk⟩,
   ⟨.ZSettings, .Speed, zApproachSpeed⟩] ++
  (if thickness ≠ deltaZ then [⟨.ZAction, .Move, thickness - deltaZ⟩] else []) ++
  [⟨.General, .Interrupt, 0⟩]

/-- `Motor::Approach`: optionally runs `UnJam` first, returning `false` at
once if the un-jam batch fails; otherwise transmits the approach batch. -/
def approach (env : MotorEnv) (lt : LayerType) (n : Int)
    (ls : LayerSettings) (unJamFirst : Bool) (s : MotorState) :
    Bool × MotorState :=
  if unJamFirst then
    let r := unJam env lt n ls false s
    if r.1 then sendCommands env (approachCommands env lt n ls) r.2
    else (false, r.2)
  else
    sendCommands env (approachCommands env lt n ls) s

/-- Command batch built by `Motor::PauseAndInspect`. -/
def pauseAndInspectCommands (env : MotorEnv) (rotation : Int) :
    List MotorCommand :=
  let rot := cppDiv rotation env.rScaleFactor
  let h := env.settings .inspectionHeight
  [⟨.RotSettings, .Jerk, env.settings .rHomingJerk⟩,
   ⟨.RotSettings, .Speed, env.rSpeedFactor * env.settings .rHomingSpeed⟩,
   ⟨.ZSettings, .Jerk, env.settings .zHomingJerk⟩,
   ⟨.ZSettings, .Speed, env.zSpeedFactor * env.settings .zHomingSpeed⟩] ++
  (if rot ≠ 0 then [⟨.RotAction, .Move, -rot⟩] else []) ++
  (if h ≠ 0 then [⟨.ZAction, .Move, h⟩] else []) ++
  [⟨.General, .Interrupt, 0⟩]

/-- Command batch built by `Motor::ResumeFromInspect`. -/
def resumeFromInspectCommands (env : MotorEnv) (rotation : Int) :
    List MotorCommand :=
  let rot := cppDiv rotation env.rScaleFactor
  let h := env.settings .inspectionHeight
  [⟨.RotSettings, .Jerk, env.settings .rStartPrintJerk⟩,
   ⟨.RotSettings, .Speed, env.rSpeedFactor * env.settings .rStartPrintSpeed⟩,
   ⟨.ZSettings, .Jerk, env.settings .zStartPrintJerk⟩,
   ⟨.ZSettings, .Speed, env.zSpeedFactor * env.settings .zStartPrintSpeed⟩] ++
  (if rot ≠ 0 then [⟨.RotAction, .Move, rot⟩] else []) ++
  (if h ≠ 0 then [⟨.ZAction, .Move, -h⟩] else []) ++
  [⟨.General, .Interrupt, 0⟩]

/-- Is this command a move action (either axis)? -/
def isMoveCmd (c : MotorCommand) : Bool :=
  match c.action with
  | Act.Move => true
  | _ => false

/-- Is this command a rotation-axis action? -/
def isRotActionCmd (c : MotorCommand) : Bool :=
  match c.register with
  | Reg.RotAction => true
  | _ => false

/-- Does a batch contain a move action transmitted with parameter zero? -/
def hasZeroMove (l : List MotorCommand) : Bool :=
  l.any fun c => isMoveCmd c && decide (c.parameter = 0)

/-- Does a batch contain a rotation-axis move with parameter zero? -/
def hasZeroRotMove (l : List MotorCommand) : Bool :=
  l.any fun c => isRotActionCmd c && isMoveCmd c && decide (c.parameter = 0)

end Motor

/-- Coarse printer states published in `PrinterStatus._state`. -/
inductive PrintEngineState
  | InitializingState
  | IdleState
  | HomeState
  | PrintingState
  | DoorOpenState
  | ErrorState
  deriving DecidableEq

/-- UI sub-states (`_UISubState`). -/
inductive UISubState
  | NoUISubState
  | Downloading
  | Downloaded
  | DownloadFailed
  deriving DecidableEq

/-- Status-record change marker. -/
inductive StateChange
  | Entering
  | Leaving
  | NoChange
  deriving DecidableEq

/-- Error codes raised through `PrintEngine::HandleError` (the subset the
claims exercise). -/
inductive ErrorCode
  | Success
  | MotorError
  | MotorTimeoutError
  | FrontPanelError
  | UnknownMotorStatus
  | UnknownFrontPanelStatus
  | NoImageForLayer
  | CantShowImage
  | CantShowBlack
  | NoPrintDataAvailable
  | SeparationRpmOutOfRange
  | UnknownCommandInput
  deriving DecidableEq

/-- The published status record (`struct PrinterStatus`). -/
structure PrinterStatus where
  state : PrintEngineState
  uiSubState : UISubState
  change : StateChange
  currentLayer : Int
  numLayers : Int
  estimatedSecondsRemaining : Int
  errorCode : ErrorCode
  errnoValue : Int
  isError : Bool
  deriving DecidableEq

/-- Motor-board command templates held in the pending-settings list
(`LAYER_THICKNESS_COMMAND`, `SEPARATION_RPM_COMMAND`). -/
inductive CmdTemplate
  | layerThicknessCommand
  | separationRpmCommand
  deriving DecidableEq

/-- A write handed to the motor board by the engine:
the single-character `STOP_MOTOR_COMMAND`, or a formatted settings
command string (template instantiated with a value). -/
inductive EngineMotorWrite
  | stop
  | settingWrite (template : CmdTemplate) (value : Int)
  deriving DecidableEq

/-- Observable state of the print engine: the status record, the stream
of records written to the status pipe, the two one-shot timers (a value
of 0 means disarmed), the log of motor-board writes, the settings-ack
flag, the pending exposure info of the state machine, and the
pending-settings list consumed by `SendSettings`. -/
structure EngineState where
  status : PrinterStatus
  emitted : List PrinterStatus
  exposureTimerSec : ℚ
  motorTimeoutSec : Int
  motorWrites : List EngineMotorWrite
  awaitingMotorSettingAck : Bool
  pendingExposure : Bool
  motorSettings : List (SettingKey × CmdTemplate)
  deriving DecidableEq

/-- Environment of the print engine: the exposure settings read in
`GetExposureTimeSec`, `BURN_IN_LAYERS`, the integer settings store used
by `SendSettings`, and the projector's `LoadImageForLayer` outcome. -/
structure Env where
  firstExposure : ℚ
  burnInExposure : ℚ
  modelExposure : ℚ
  burnInLayers : Int
  settingsInt : SettingKey → Int
  loadImageOk : Int → Bool

namespace PrintEngine

/-- One extra video frame at 60 Hz (`VIDEOFRAME__SEC`). -/
def VIDEOFRAME__SEC : ℚ := 1 / 60

/-- `PrintEngine::SendStatus`: update the status record's state, substate
and change fields and write the whole record to the status pipe. -/
def sendStatus (st : PrintEngineState) (change : StateChange)
    (substate : UISubState) (s : EngineState) : EngineState :=
  let ps := { s.status with
    state := st
    uiSubState := substate
    change := change }
  { s with status := ps, emitted := s.emitted ++ [ps] }

/-- `PrintEngine::StartExposureTimer`; arming with 0 disarms. -/
def startExposureTimer (seconds : ℚ) (s : EngineState) : EngineState :=
  { s with exposureTimerSec := seconds }

/-- `PrintEngine::ClearExposureTimer`. -/
def clearExposureTimer (s : EngineState) : EngineState :=
  startExposureTimer 0 s

/-- `PrintEngine::StartMotorTimeoutTimer`; arming with 0 disarms. -/
def startMotorTimeoutTimer (seconds : Int) (s : EngineState) : EngineState :=
  { s with motorTimeoutSec := seconds }

/-- `PrintEngine::ClearMotorTimeoutTimer`. -/
def clearMotorTimeoutTimer (s : EngineState) : EngineState :=
  startMotorTimeoutTimer 0 s

/-- `PrintEngine::SendMotorCommand(STOP_MOTOR_COMMAND)`. -/
def sendStopCommand (s : EngineState) : EngineState :=
  { s with motorWrites := s.motorWrites ++ [EngineMotorWrite.stop] }

/-- `PrintEngine::StopMotor`: send `STOP` and clear the motor-timeout
timer. -/
def stopMotor (s : EngineState) : EngineState :=
  clearMotorTimeoutTimer (sendStopCommand s)

/-- `PrintEngine::SetNumLayers`: sets the layer count and resets the
current layer number. -/
def setNumLayers (n : Int) (s : EngineState) : EngineState :=
  { s with status := { s.status with numLayers := n, currentLayer := 0 } }

/-- `PrintEngine::CancelPrint`: stop the motor, clear the number of
layers, clear the exposure timer, and clear the state machine's pending
exposure info. -/
def cancelPrint (s : EngineState) : EngineState :=
  let s₁ := stopMotor s
  let s₂ := setNumLayers 0 s₁
  let s₃ := clearExposureTimer s₂
  { s₃ with pendingExposure := false }

/-- Modelled from the spec: `PrinterStateMachine::HandleFatalError` is
not under `src/` (only its caller is).  Per §4.5/§4.6 the injected fault
event always moves the machine to `Error` after `stop_motor()` and
`cancel_print()`, and per §3 one status record is emitted for that
observable state change. -/
def handleFatalError (s : EngineState) : EngineState :=
  let s₁ := cancelPrint s
  sendStatus PrintEngineState.ErrorState StateChange.Entering
    s₁.status.uiSubState s₁

/-- `PrintEngine::HandleError`: record the error in the status with
`_isError = true`, send one status record, idle the state machine on
fatal errors, then clear `_isError`.  (The captured `errno` is passed in;
the message-string/value arguments only affect logging and are not
modelled.) -/
def handleError (code : ErrorCode) (fatal : Bool) (errnoValue : Int)
    (s : EngineState) : EngineState :=
  let ps := { s.status with
    errorCode := code
    errnoValue := errnoValue
    isError := true }
  let s₁ := sendStatus ps.state StateChange.NoChange ps.uiSubState
    { s with status := ps }
  let s₂ := if fatal then handleFatalError s₁ else s₁
  { s₂ with status := { s₂.status with isError := false } }

/-- `PrintEngine::IsFirstLayer`. -/
def isFirstLayer (s : EngineState) : Bool :=
  s.status.currentLayer == 1

/-- `PrintEngine::IsBurnInLayer`. -/
def isBurnInLayer (env : Env) (s : EngineState) : Bool :=
  let numBurnInLayers := env.burnInLayers
  decide (numBurnInLayers > 0) &&
  decide (s.status.currentLayer > 1) &&
  decide (s.status.currentLayer ≤ 1 + numBurnInLayers)

/-- Layer classification as the engine performs it (the branch order of
`GetExposureTimeSec` / `SetEstimatedPrintTime`). -/
def currentLayerType (env : Env) (s : EngineState) : LayerType :=
  if isFirstLayer s then LayerType.First
  else if isBurnInLayer env s then LayerType.BurnIn
  else LayerType.Model

/-- Configured exposure time for a layer type (`FIRST_EXPOSURE`,
`BURN_IN_EXPOSURE`, `MODEL_EXPOSURE`). -/
def layerExposure (env : Env) : LayerType → ℚ
  | LayerType.First => env.firstExposure
  | LayerType.BurnIn => env.burnInExposure
  | LayerType.Model => env.modelExposure

/-- `PrintEngine::GetExposureTimeSec`: pick the configured time for the
current layer type, then subtract one video frame — but only when the
configured time strictly exceeds one frame. -/
def getExposureTimeSec (env : Env) (s : EngineState) : ℚ :=
  let expTime :=
    if isFirstLayer s then env.firstExposure
    else if isBurnInLayer env s then env.burnInExposure
    else env.modelExposure
  if expTime > VIDEOFRAME__SEC then expTime - VIDEOFRAME__SEC else expTime

/-- `PrintEngine::NextLayer`: increment the current layer, load its
image; on failure raise `NoImageForLayer` fatally and cancel the print;
finally return the (possibly reset) current layer number. -/
def nextLayer (env : Env) (s : EngineState) : Int × EngineState :=
  let s₁ := { s with status :=
    { s.status with currentLayer := s.status.currentLayer + 1 } }
  let s₂ :=
    if !(env.loadImageOk s₁.status.currentLayer) then
      cancelPrint (handleError ErrorCode.NoImageForLayer true 0 s₁)
    else s₁
  (s₂.status.currentLayer, s₂)

/-- `PrintEngine::SendSettings`.  Modelled from the spec for one detail:
the source compares `it->first` against `SEPARATION_RPM` after
`_motorSettings.erase(it)` has invalidated `it` (flagged in §9 as a
read-after-invalidation bug); per §9 the intent — capture the key before
erasure, skip the send when the value is out of range, and keep the
pipeline going — is authoritative and is what this definition does.  All
else follows the source: pop the first pending entry, read its value,
range-check `SEPARATION_RPM` (0..9) raising `SeparationRpmOutOfRange`
non-fatally and returning whether the list is now empty, otherwise format
and send the command, set the ack flag and return `false`. -/
def sendSettings (env : Env) (s : EngineState) : Bool × EngineState :=
  match s.motorSettings with
  | [] => (true, s)
  | (key, cmdString) :: rest =>
    let value := env.settingsInt key
    let s₁ := { s with motorSettings := rest }
    if key = SettingKey.separationRPM ∧ (value < 0 ∨ value > 9) then
      (decide (rest = []),
       handleError ErrorCode.SeparationRpmOutOfRange false 0 s₁)
    else
      (false,
       { s₁ with awaitingMotorSettingAck := true,
                 motorWrites := s₁.motorWrites ++
                   [EngineMotorWrite.settingWrite cmdString value] })

/-- The `_invertDoorSwitch` flag: set when `HARDWARE_REV == 0`. -/
def invertDoorSwitch (hardwareRev : Int) : Bool :=
  decide (hardwareRev = 0)

/-- Event produced by the door-switch router. -/
inductive DoorEvent
  | evDoorClosed
  | evDoorOpened
  deriving DecidableEq

/-- `PrintEngine::DoorCallback`: the raw byte equal to `'1'` (inverted)
or `'0'` (not inverted) means the door closed; every other byte means it
opened. -/
def doorCallback (inv : Bool) (data : Char) : DoorEvent :=
  if data = (if inv then '1' else '0') then DoorEvent.evDoorClosed
  else DoorEvent.evDoorOpened

/-- `PrintEngine::DoorIsOpen`: reads the GPIO value byte; open when it
equals `'0'` (inverted) or `'1'` (not inverted).  Without hardware the
door always reads closed. -/
def doorIsOpen (haveHardware : Bool) (inv : Bool) (value : Char) : Bool :=
  if !haveHardware then false
  else value == (if inv then '0' else '1')

end PrintEngine

/-! Concrete inputs used by the counterexamples and witnesses below. -/

/-- A freshly initialized status record. -/
def status0 : PrinterStatus :=
  ⟨PrintEngineState.InitializingState, UISubState.NoUISubState,
   StateChange.NoChange, 0, 0, 0, ErrorCode.Success, 0, false⟩

/-- An engine state with empty logs, disarmed timers and no print. -/
def engineState0 : EngineState := ⟨status0, [], 0, 0, [], false, false, []⟩

/-- A motor driver state before any transmission. -/
def motorState0 : MotorState := ⟨0, []⟩

/-- A motor environment whose settings are all zero and whose bus always
transmits successfully. -/
def envAllZero : MotorEnv := ⟨fun _ => 0, 1, 1, 1, 1, fun _ => true⟩

/-- A motor environment whose bus fails every transmission. -/
def envTxFail : MotorEnv := ⟨fun _ => 0, 1, 1, 1, 1, fun _ => false⟩

/-- An engine environment whose first-layer exposure is exactly one video
frame. -/
def envFrame : Env := ⟨1 / 60, 1, 1, 0, fun _ => 0, fun _ => true⟩

/-- An engine environment whose first-layer exposure is two seconds. -/
def envTwoSec : Env := ⟨2, 1, 1, 0, fun _ => 0, fun _ => true⟩

/-- An engine environment whose projector can load no image. -/
def envNoImage : Env := ⟨1, 1, 1, 0, fun _ => 0, fun _ => false⟩

/-- An engine environment whose integer settings all read 12
(`SEPARATION_RPM` out of range). -/
def envRpm12 : Env := ⟨1, 1, 1, 0, fun _ => 12, fun _ => true⟩

/-- An engine environment whose integer settings all read 5
(`SEPARATION_RPM` in range). -/
def envRpm5 : Env := ⟨1, 1, 1, 0, fun _ => 5, fun _ => true⟩

/-- An engine state whose current layer is 1 (first layer). -/
def sFirstLayer : EngineState :=
  { engineState0 with status := { status0 with currentLayer := 1 } }

/-- An engine state whose pending-settings list holds exactly the
`SEPARATION_RPM` entry. -/
def sPendingRpm : EngineState :=
  { engineState0 with motorSettings :=
      [(SettingKey.separationRPM, CmdTemplate.separationRpmCommand)] }

/-- An all-zero layer-settings store. -/
def lsZero : LayerSettings := fun _ _ => 0

/-- A single-byte enable command, used as a concrete batch element. -/
def cmdEnable : MotorCommand := ⟨Reg.General, Act.Enable, 0⟩

/-- C3: after `CancelPrint` returns, the `STOP` command has been sent to
the motor board, the motor-timeout timer is disarmed, the exposure timer
is disarmed, `num_layers = 0`, and `current_layer = 0` — for every prior
engine state (hence every prior `PrinterStatus`). -/
theorem claim_C3_cancelPrint (s : EngineState) :
    (PrintEngine.cancelPrint s).motorWrites
        = s.motorWrites ++ [EngineMotorWrite.stop]
    ∧ (PrintEngine.cancelPrint s).motorTimeoutSec = 0
    ∧ (PrintEngine.cancelPrint s).exposureTimerSec = 0
    ∧ (PrintEngine.cancelPrint s).status.numLayers = 0
    ∧ (PrintEngine.cancelPrint s).status.currentLayer = 0 :=
  ⟨rfl, rfl, rfl, rfl, rfl⟩

/-- C5: layer-type classification is a function of
`(current_layer, burn_in_layers)` only, and for every current layer `L`
and burn-in count `B` the engine classifies `First` iff `L = 1`, `BurnIn`
iff `B > 0 ∧ 2 ≤ L ≤ 1 + B`, and `Model` otherwise. -/
theorem claim_C5_layerType (env₁ env₂ : Env) (s₁ s₂ : EngineState) :
    (PrintEngine.currentLayerType env₁ s₁ = LayerType.First
      ↔ s₁.status.currentLayer = 1)
    ∧ (PrintEngine.currentLayerType env₁ s₁ = LayerType.BurnIn
      ↔ 0 < env₁.burnInLayers ∧ 2 ≤ s₁.status.currentLayer
          ∧ s₁.status.currentLayer ≤ 1 + env₁.burnInLayers)
    ∧ (PrintEngine.currentLayerType env₁ s₁ = LayerType.Model
      ↔ s₁.status.currentLayer ≠ 1
          ∧ ¬(0 < env₁.burnInLayers ∧ 2 ≤ s₁.status.currentLayer
              ∧ s₁.status.currentLayer ≤ 1 + env₁.burnInLayers))
    ∧ (s₁.status.currentLayer = s₂.status.currentLayer
        → env₁.burnInLayers = env₂.burnInLayers
        → PrintEngine.currentLayerType env₁ s₁
            = PrintEngine.currentLayerType env₂ s₂) := by
  refine ⟨?_, ?_, ?_, ?_⟩
  · unfold PrintEngine.currentLayerType PrintEngine.isFirstLayer
      PrintEngine.isBurnInLayer
    split_ifs <;> simp_all <;> omega
  · unfold PrintEngine.currentLayerType PrintEngine.isFirstLayer
      PrintEngine.isBurnInLayer
    split_ifs <;> simp_all <;> omega
  · unfold PrintEngine.currentLayerType PrintEngine.isFirstLayer
      PrintEngine.isBurnInLayer
    split_ifs <;> simp_all <;> omega
  · intro hL hB
    unfold PrintEngine.currentLayerType PrintEngine.isFirstLayer
      PrintEngine.isBurnInLayer
    rw [hL, hB]

/-- C5 witness: evaluated at layer 2 with one burn-in layer the engine
classifies `BurnIn`, and two environments agreeing on
`(current_layer, burn_in_layers)` classify alike. -/
theorem claim_C5_witness :
    PrintEngine.currentLayerType
        { envTwoSec with burnInLayers := 1 }
        { engineState0 with status := { status0 with currentLayer := 2 } }
      = PrintEngine.currentLayerType
        { envNoImage with burnInLayers := 1 }
        { engineState0 with status := { status0 with currentLayer := 2 } } :=
  (claim_C5_layerType { envTwoSec with burnInLayers := 1 }
    { envNoImage with burnInLayers := 1 }
    { engineState0 with status := { status0 with currentLayer := 2 } }
    { engineState0 with status := { status0 with currentLayer := 2 } }).2.2.2
    rfl rfl

/-- C9: the event router maps the raw door byte to `EvDoorClosed` iff it
equals `'1'` when `HARDWARE_REV = 0` and `'0'` otherwise, maps every
other byte to `EvDoorOpened`, and on the two legal GPIO bytes the direct
probe `DoorIsOpen` agrees with the router's inverted mapping. -/
theorem claim_C9_door (rev : Int) (b : Char) :
    (PrintEngine.doorCallback (PrintEngine.invertDoorSwitch rev) b
        = PrintEngine.DoorEvent.evDoorClosed
      ↔ b = (if rev = 0 then '1' else '0'))
    ∧ (PrintEngine.doorCallback (PrintEngine.invertDoorSwitch rev) b
        = PrintEngine.DoorEvent.evDoorOpened
      ↔ ¬b = (if rev = 0 then '1' else '0'))
    ∧ (PrintEngine.doorIsOpen true (PrintEngine.invertDoorSwitch rev) '0' = true
      ↔ PrintEngine.doorCallback (PrintEngine.invertDoorSwitch rev) '0'
          = PrintEngine.DoorEvent.evDoorOpened)
    ∧ (PrintEngine.doorIsOpen true (PrintEngine.invertDoorSwitch rev) '1' = true
      ↔ PrintEngine.doorCallback (PrintEngine.invertDoorSwitch rev) '1'
          = PrintEngine.DoorEvent.evDoorOpened) := by
  by_cases h : rev = 0 <;>
    simp [PrintEngine.doorCallback, PrintEngine.doorIsOpen,
      PrintEngine.invertDoorSwitch, h] <;>
    split_ifs <;> simp_all

/-- C2 (amended): on entering `Exposing` the computed duration equals the
layer type's configured exposure time minus `VIDEOFRAME__SEC` when the
configured time strictly exceeds one video frame, and equals the
configured time unchanged otherwise — configured times in
`(0, VIDEOFRAME__SEC]` are not clamped to 0. -/
theorem claim_C2_exposure (env : Env) (s : EngineState) :
    (PrintEngine.VIDEOFRAME__SEC
        < PrintEngine.layerExposure env (PrintEngine.currentLayerType env s) →
      PrintEngine.getExposureTimeSec env s
        = PrintEngine.layerExposure env (PrintEngine.currentLayerType env s)
            - PrintEngine.VIDEOFRAME__SEC)
    ∧ (PrintEngine.layerExposure env (PrintEngine.currentLayerType env s)
        ≤ PrintEngine.VIDEOFRAME__SEC →
      PrintEngine.getExposureTimeSec env s
        = PrintEngine.layerExposure env (PrintEngine.currentLayerType env s)) := by
  unfold PrintEngine.getExposureTimeSec PrintEngine.currentLayerType
  split_ifs <;>
    (simp only [PrintEngine.layerExposure, gt_iff_lt]
     constructor <;> intro h <;> split_ifs with hc <;> first | rfl | linarith)

/-- C2 witness: with a two-second first-layer exposure the duration is
the configured time less one video frame. -/
theorem claim_C2_witness :
    PrintEngine.getExposureTimeSec envTwoSec sFirstLayer
      = PrintEngine.layerExposure envTwoSec
          (PrintEngine.currentLayerType envTwoSec sFirstLayer)
        - PrintEngine.VIDEOFRAME__SEC :=
  (claim_C2_exposure envTwoSec sFirstLayer).1 (by
    show PrintEngine.VIDEOFRAME__SEC
        < PrintEngine.layerExposure envTwoSec
            (PrintEngine.currentLayerType envTwoSec sFirstLayer)
    norm_num [PrintEngine.VIDEOFRAME__SEC, PrintEngine.layerExposure,
      PrintEngine.currentLayerType, PrintEngine.isFirstLayer, envTwoSec,
      sFirstLayer, engineState0, status0])

/-- C2 counterexample: a non-negative configured first-layer exposure of
exactly one video frame yields a duration of one video frame, not the
claimed `max (c - VIDEOFRAME__SEC) 0 = 0`. -/
theorem claim_C2_cex :
    PrintEngine.layerExposure envFrame
        (PrintEngine.currentLayerType envFrame sFirstLayer)
      = PrintEngine.VIDEOFRAME__SEC
    ∧ (0 : ℚ) ≤ PrintEngine.VIDEOFRAME__SEC
    ∧ PrintEngine.getExposureTimeSec envFrame sFirstLayer
        ≠ max (PrintEngine.VIDEOFRAME__SEC - PrintEngine.VIDEOFRAME__SEC) 0 := by
  refine ⟨rfl, by norm_num [PrintEngine.VIDEOFRAME__SEC], ?_⟩
  norm_num [PrintEngine.getExposureTimeSec, PrintEngine.VIDEOFRAME__SEC,
    PrintEngine.isFirstLayer, envFrame, sFirstLayer, engineState0, status0]

/-- C1 (amended): every call to `HandleError` emits exactly one status
record carrying `is_error = true` when the error is non-fatal; when it is
fatal, the record emitted on entering `Error` during the fatal handling
also carries `is_error = true` (two records in all), and the flag is
cleared only when `HandleError` returns, before any later emission. -/
theorem claim_C1_isErrorLatch (code : ErrorCode) (fatal : Bool)
    (e : Int) (s : EngineState) :
    (PrintEngine.handleError code fatal e s).emitted.length
        = s.emitted.length + (if fatal then 2 else 1)
    ∧ (PrintEngine.handleError code fatal e s).emitted.take s.emitted.length
        = s.emitted
    ∧ ((PrintEngine.handleError code fatal e s).emitted.drop
          s.emitted.length).all (fun r => r.isError) = true
    ∧ (PrintEngine.handleError code fatal e s).status.isError = false := by
  cases fatal <;>
    simp [PrintEngine.handleError, PrintEngine.handleFatalError,
      PrintEngine.sendStatus, PrintEngine.cancelPrint, PrintEngine.stopMotor,
      PrintEngine.clearMotorTimeoutTimer, PrintEngine.startMotorTimeoutTimer,
      PrintEngine.setNumLayers, PrintEngine.clearExposureTimer,
      PrintEngine.startExposureTimer, PrintEngine.sendStopCommand,
      List.take_append_of_le_length, List.append_assoc]

/-- C1 counterexample: raising a single fatal `MotorError` from a fresh
engine state emits two status records with `is_error = true`, refuting
"at most one status record carries `is_error = true` per raised error".
-/
theorem claim_C1_cex :
    ¬((PrintEngine.handleError ErrorCode.MotorError true 0
          engineState0).emitted.countP (fun r => r.isError) ≤ 1) := by
  decide

/-- C10: `NextLayer` returns 0 with `current_layer = 0` and
`num_layers = 0` (having raised `NoImageForLayer` fatally and cancelled
the print) when the incremented layer's image cannot be loaded, and
returns the incremented layer number changing no other `PrinterStatus`
field when it loads. -/
theorem claim_C10_nextLayer (env : Env) (s : EngineState) :
    (env.loadImageOk (s.status.currentLayer + 1) = false →
      (PrintEngine.nextLayer env s).1 = 0
      ∧ (PrintEngine.nextLayer env s).2.status.currentLayer = 0
      ∧ (PrintEngine.nextLayer env s).2.status.numLayers = 0
      ∧ (PrintEngine.nextLayer env s).2.status.errorCode
          = ErrorCode.NoImageForLayer)
    ∧ (env.loadImageOk (s.status.currentLayer + 1) = true →
      (PrintEngine.nextLayer env s).1 = s.status.currentLayer + 1
      ∧ (PrintEngine.nextLayer env s).2.status
          = { s.status with currentLayer := s.status.currentLayer + 1 }) := by
  constructor <;> intro h <;>
    simp [PrintEngine.nextLayer, h, PrintEngine.handleError,
      PrintEngine.handleFatalError, PrintEngine.sendStatus,
      PrintEngine.cancelPrint, PrintEngine.stopMotor,
      PrintEngine.clearMotorTimeoutTimer, PrintEngine.startMotorTimeoutTimer,
      PrintEngine.setNumLayers, PrintEngine.clearExposureTimer,
      PrintEngine.startExposureTimer, PrintEngine.sendStopCommand]

/-- C10 witness: from a fresh state whose projector loads no image,
`NextLayer` returns 0, clears the layer counters and records
`NoImageForLayer`. -/
theorem claim_C10_witness :
    (PrintEngine.nextLayer envNoImage engineState0).1 = 0
    ∧ (PrintEngine.nextLayer envNoImage engineState0).2.status.currentLayer = 0
    ∧ (PrintEngine.nextLayer envNoImage engineState0).2.status.numLayers = 0
    ∧ (PrintEngine.nextLayer envNoImage engineState0).2.status.errorCode
        = ErrorCode.NoImageForLayer :=
  (claim_C10_nextLayer envNoImage engineState0).1 rfl

/-- Transmitting a batch that fails stops at the failing command: there
is a first failing transmission, and the bus saw exactly the commands up
to and including it. -/
theorem sendCommands_fail_spec (env : MotorEnv) (cmds : List MotorCommand) :
    ∀ s : MotorState, (Motor.sendCommands env cmds s).1 = false →
      ∃ i, i < cmds.length
        ∧ env.txOk (s.txCount + i) = false
        ∧ (∀ j, j < i → env.txOk (s.txCount + j) = true)
        ∧ (Motor.sendCommands env cmds s).2.sent
            = s.sent ++ cmds.take (i + 1) := by
  induction cmds with
  | nil => intro s h; simp [Motor.sendCommands] at h
  | cons c rest ih =>
    intro s hfail
    by_cases hok : env.txOk s.txCount
    · rw [Motor.sendCommands] at hfail
      simp only [Motor.send, hok, if_true] at hfail
      obtain ⟨i, hi, hfaili, hprev, hsent⟩ :=
        ih ⟨s.txCount + 1, s.sent ++ [c]⟩ hfail
      refine ⟨i + 1, by simpa using Nat.succ_lt_succ hi, ?_, ?_, ?_⟩
      · have he : s.txCount + (i + 1) = s.txCount + 1 + i := by omega
        rw [he]; exact hfaili
      · intro j hj
        cases j with
        | zero => simpa using hok
        | succ j' =>
          have he : s.txCount + (j' + 1) = s.txCount + 1 + j' := by omega
          rw [he]; exact hprev j' (by omega)
      · rw [Motor.sendCommands]
        simp only [Motor.send, hok, if_true]
        rw [hsent]
        simp [List.take]
    · refine ⟨0, by simp, by simpa using hok, by omega, ?_⟩
      rw [Motor.sendCommands]
      simp [Motor.send, hok, List.take]

/-- C4 (amended): `SendCommands` over any command list returns `false` on
the first failed transmission having handed the bus only the commands up
to and including the failing one, and `Approach` with un-jam returns
`false` at once — with no approach-batch command sent — when its un-jam
phase fails; `GoToStartPosition`, however, discards the result of its
embedded `GoHome` (see the counterexample). -/
theorem claim_C4_earlyExit (env : MotorEnv) (cmds : List MotorCommand)
    (s : MotorState) (lt : LayerType) (n : Int) (ls : LayerSettings) :
    ((Motor.sendCommands env cmds s).1 = false →
      ∃ i, i < cmds.length
        ∧ env.txOk (s.txCount + i) = false
        ∧ (∀ j, j < i → env.txOk (s.txCount + j) = true)
        ∧ (Motor.sendCommands env cmds s).2.sent
            = s.sent ++ cmds.take (i + 1))
    ∧ ((Motor.unJam env lt n ls false s).1 = false →
      Motor.approach env lt n ls true s
        = (false, (Motor.unJam env lt n ls false s).2)) := by
  refine ⟨sendCommands_fail_spec env cmds s, ?_⟩
  intro h
  simp [Motor.approach, h]

/-- C4 witness: on a bus that fails every transmission, a one-command
batch fails at its first command having sent exactly that command. -/
theorem claim_C4_witness :
    ∃ i, i < [cmdEnable].length
      ∧ envTxFail.txOk (motorState0.txCount + i) = false
      ∧ (∀ j, j < i → envTxFail.txOk (motorState0.txCount + j) = true)
      ∧ (Motor.sendCommands envTxFail [cmdEnable] motorState0).2.sent
          = motorState0.sent ++ [cmdEnable].take (i + 1) :=
  (claim_C4_earlyExit envTxFail [cmdEnable] motorState0 LayerType.First 0
    lsZero).1 rfl

/-- C4 counterexample: on a bus that fails every transmission, the very
first command of `GoToStartPosition`'s embedded `GoHome` fails to
transmit, yet the operation still sends a later command (its own batch's
first command): two commands reach the bus in all. -/
theorem claim_C4_cex :
    envTxFail.txOk 0 = false
    ∧ (Motor.goToStartPosition envTxFail motorState0).1 = false
    ∧ (Motor.goToStartPosition envTxFail motorState0).2.sent.length = 2 := by
  refine ⟨rfl, rfl, rfl⟩

/-- C6: with the pending-settings list headed by an out-of-range
`SEPARATION_RPM` entry, `SendSettings` raises `SeparationRpmOutOfRange`
non-fatally (one status record, state unchanged, flag cleared), sends no
motor command, removes the entry and returns `true` iff nothing remains;
with the value in range it sends exactly one motor write, sets the
awaiting-ack flag and returns `false`. -/
theorem claim_C6_sendSettings (env : Env) (s : EngineState)
    (cmd : CmdTemplate) (rest : List (SettingKey × CmdTemplate))
    (hms : s.motorSettings = (SettingKey.separationRPM, cmd) :: rest) :
    ((env.settingsInt SettingKey.separationRPM < 0
        ∨ env.settingsInt SettingKey.separationRPM > 9) →
      (PrintEngine.sendSettings env s).2.status.errorCode
          = ErrorCode.SeparationRpmOutOfRange
      ∧ (PrintEngine.sendSettings env s).2.status.isError = false
      ∧ (PrintEngine.sendSettings env s).2.status.state = s.status.state
      ∧ (PrintEngine.sendSettings env s).2.emitted.length
          = s.emitted.length + 1
      ∧ (PrintEngine.sendSettings env s).2.motorWrites = s.motorWrites
      ∧ (PrintEngine.sendSettings env s).2.motorSettings = rest
      ∧ ((PrintEngine.sendSettings env s).1 = true ↔ rest = []))
    ∧ ((0 ≤ env.settingsInt SettingKey.separationRPM
        ∧ env.settingsInt SettingKey.separationRPM ≤ 9) →
      (PrintEngine.sendSettings env s).2.motorWrites
          = s.motorWrites ++ [EngineMotorWrite.settingWrite cmd
              (env.settingsInt SettingKey.separationRPM)]
      ∧ (PrintEngine.sendSettings env s).2.awaitingMotorSettingAck = true
      ∧ (PrintEngine.sendSettings env s).2.motorSettings = rest
      ∧ (PrintEngine.sendSettings env s).1 = false) := by
  constructor <;> intro h
  · simp only [PrintEngine.sendSettings, hms]
    split_ifs with hc
    · simp [PrintEngine.handleError, PrintEngine.sendStatus]
    · exact absurd h (by simpa using hc)
  · simp only [PrintEngine.sendSettings, hms]
    split_ifs with hc
    · exfalso
      have hc' : env.settingsInt SettingKey.separationRPM < 0
          ∨ 9 < env.settingsInt SettingKey.separationRPM := by simpa using hc
      omega
    · exact ⟨rfl, rfl, rfl, rfl⟩

/-- C6 witness: with the sole pending entry `SEPARATION_RPM` and value
12, `SendSettings` raises the range error, writes nothing to the motor
board, empties the list and reports the pipeline finished. -/
theorem claim_C6_witness :
    (PrintEngine.sendSettings envRpm12 sPendingRpm).2.status.errorCode
        = ErrorCode.SeparationRpmOutOfRange
    ∧ (PrintEngine.sendSettings envRpm12 sPendingRpm).2.status.isError = false
    ∧ (PrintEngine.sendSettings envRpm12 sPendingRpm).2.status.state
        = sPendingRpm.status.state
    ∧ (PrintEngine.sendSettings envRpm12 sPendingRpm).2.emitted.length
        = sPendingRpm.emitted.length + 1
    ∧ (PrintEngine.sendSettings envRpm12 sPendingRpm).2.motorWrites
        = sPendingRpm.motorWrites
    ∧ (PrintEngine.sendSettings envRpm12 sPendingRpm).2.motorSettings = []
    ∧ ((PrintEngine.sendSettings envRpm12 sPendingRpm).1 = true
        ↔ ([] : List (SettingKey × CmdTemplate)) = []) :=
  (claim_C6_sendSettings envRpm12 sPendingRpm
    CmdTemplate.separationRpmCommand [] rfl).1 (by decide)

/-- C7: for every layer type and layer settings, the move actions of the
`Separate` batch are the rotation move of amount
`-(rotation / R_SCALE_FACTOR)` followed by the Z lift of `Z_LIFT`, and
those of the `Approach` batch are the rotation move of amount
`+(rotation / R_SCALE_FACTOR)` followed by the Z move of
`thickness - Z_LIFT` (each omitted exactly when its amount is zero). -/
theorem claim_C7_batchMoves (env : MotorEnv) (lt : LayerType) (n : Int)
    (ls : LayerSettings) :
    (Motor.separateCommands env lt n ls).filter Motor.isMoveCmd
      = (if cppDiv (ls n (Motor.rotationKey lt)) env.rScaleFactor = 0 then []
         else [⟨Reg.RotAction, Act.Move,
                -(cppDiv (ls n (Motor.rotationKey lt)) env.rScaleFactor)⟩])
        ++ (if ls n (Motor.zLiftKey lt) = 0 then []
            else [⟨Reg.ZAction, Act.Move, ls n (Motor.zLiftKey lt)⟩])
    ∧ (Motor.approachCommands env lt n ls).filter Motor.isMoveCmd
      = (if cppDiv (ls n (Motor.rotationKey lt)) env.rScaleFactor = 0 then []
         else [⟨Reg.RotAction, Act.Move,
                cppDiv (ls n (Motor.rotationKey lt)) env.rScaleFactor⟩])
        ++ (if ls n SettingKey.layerThickness = ls n (Motor.zLiftKey lt) then []
            else [⟨Reg.ZAction, Act.Move,
                   ls n SettingKey.layerThickness - ls n (Motor.zLiftKey lt)⟩]) := by
  constructor
  · unfold Motor.separateCommands
    split_ifs <;>
      simp_all [Motor.isMoveCmd, List.filter_append, List.filter]
  · unfold Motor.approachCommands
    split_ifs <;>
      simp_all [Motor.isMoveCmd, List.filter_append, List.filter]

/-- C8 (amended): in the batches built by `GoHome`, `Separate`,
`Approach`, `PauseAndInspect`, `ResumeFromInspect` and `UnJam` a move
whose computed amount is zero is omitted, and `GoToStartPosition` omits
its zero rotation move — but its final Z move to
`Z_START_PRINT_POSITION` is sent unconditionally, even with parameter
zero (see the counterexample). -/
theorem claim_C8_zeroMoves (env : MotorEnv) (lt : LayerType) (n : Int)
    (ls : LayerSettings) (rot : Int) (wi : Bool) :
    Motor.hasZeroMove (Motor.goHomeCommands env wi) = false
    ∧ Motor.hasZeroMove (Motor.separateCommands env lt n ls) = false
    ∧ Motor.hasZeroMove (Motor.approachCommands env lt n ls) = false
    ∧ Motor.hasZeroMove (Motor.pauseAndInspectCommands env rot) = false
    ∧ Motor.hasZeroMove (Motor.resumeFromInspectCommands env rot) = false
    ∧ Motor.hasZeroMove (Motor.unJamCommands env lt n ls wi) = false
    ∧ Motor.hasZeroRotMove (Motor.goToStartPositionCommands env) = false := by
  refine ⟨?_, ?_, ?_, ?_, ?_, ?_, ?_⟩ <;>
    simp only [Motor.goHomeCommands, Motor.separateCommands,
      Motor.approachCommands, Motor.pauseAndInspectCommands,
      Motor.resumeFromInspectCommands, Motor.unJamCommands,
      Motor.goToStartPositionCommands, Motor.hasZeroMove,
      Motor.hasZeroRotMove, Motor.isMoveCmd, Motor.isRotActionCmd,
      List.any_append, List.any_cons, List.any_nil] <;>
    split_ifs <;>
    simp_all [neg_eq_zero, sub_eq_zero]

/-- C8 counterexample: with every setting zero (and unit scale factors)
the `GoToStartPosition` batch contains its Z move transmitted with
parameter zero rather than omitted. -/
theorem claim_C8_cex :
    (⟨Reg.ZAction, Act.Move, 0⟩ : MotorCommand)
        ∈ Motor.goToStartPositionCommands envAllZero
    ∧ Motor.hasZeroMove (Motor.goToStartPositionCommands envAllZero) = true := by
  refine ⟨by decide, by decide⟩
